import Mathlib

/-!
Verification of the costcodle-unlimited state-management core.

The definitions below are a shallow embedding of the deterministic logic in
`src/modules/state.ts` (StateManager, validation, dateUtils, mathUtils),
`src/modules/constants.ts` (GAME_CONFIG, DEFAULT_GAME_STATE, DEFAULT_USER_STATS)
and `src/types/game.ts` (gameMechanics).  JavaScript numbers that only ever
hold integer millisecond timestamps are modelled as `Int`; prices and
percentages as `ℚ`; the counters in `UserStats` (which start at 0 and are only
ever incremented or reset to 0) as `Nat`.
-/

namespace Costcodle

/-! ### Configuration (`src/modules/constants.ts`, `GAME_CONFIG`) -/

def MAX_GUESSES : Nat := 6

def WIN_THRESHOLD_PERCENT : ℚ := 5

def NEAR_THRESHOLD_PERCENT : ℚ := 25

/-- `COSTCODLE_START_DATE = new Date('09/21/2023')`: local midnight on
Sep 21 2023.  The date string carries no timezone, so the absolute
millisecond value depends on the host timezone; we fix the US-Eastern (UTC-4)
value 1695268800000.  Every claim about the game-number calculator is relative
to this constant, so the choice of timezone offset does not affect any
theorem below. -/
def COSTCODLE_START_DATE_MS : Int := 1695268800000

def MS_PER_DAY : Int := 86400000

/-! ### Game-number calculator (`src/modules/state.ts`, `dateUtils.getGameNumber`)

The source computes `Math.ceil((now - start) / 86400000)` with float64
division.  Both operands are exact integers far below 2^53 and the divisor is
86400000, so the float computation agrees with the exact rational ceiling for
every realistic timestamp; we embed the exact ceiling over `Int`. -/

/-- Ceiling division for a positive divisor: `ceilDiv a b = ⌈a / b⌉`
(`/` on `Int` is Euclidean division, which floors for a positive divisor). -/
def ceilDiv (a b : Int) : Int := (a + b - 1) / b

def getGameNumber (nowMs : Int) : Int :=
  ceilDiv (nowMs - COSTCODLE_START_DATE_MS) MS_PER_DAY

/-! ### Data model (`src/types/game.ts`) -/

inductive GuessCloseness
  | win
  | near
  | far
deriving DecidableEq

inductive GuessDirection
  | up
  | down
  | check
deriving DecidableEq

structure Guess where
  guess : ℚ
  closeness : GuessCloseness
  direction : GuessDirection
deriving DecidableEq

structure GameState where
  gameNumber : Int
  guesses : List Guess
  hasWon : Bool
deriving DecidableEq

structure UserStats where
  numGames : Nat
  numWins : Nat
  winsInNum : List Nat
  currentStreak : Nat
  maxStreak : Nat
deriving DecidableEq

/-- `DEFAULT_GAME_STATE` from `src/modules/constants.ts`: `gameNumber = -1`
is the "unset" sentinel. -/
def DEFAULT_GAME_STATE : GameState :=
  { gameNumber := -1, guesses := [], hasWon := false }

/-- `DEFAULT_USER_STATS` from `src/modules/constants.ts`. -/
def DEFAULT_USER_STATS : UserStats :=
  { numGames := 0, numWins := 0, winsInNum := [0, 0, 0, 0, 0, 0],
    currentStreak := 0, maxStreak := 0 }

/-- The two play modes (`isArchiveMode` flag in `AppState`). -/
inductive Mode
  | daily
  | archive
deriving DecidableEq

/-! ### Guess evaluator (`mathUtils.calculatePercentDifference`,
`gameMechanics.createGuessObject`) -/

/-- Result of `calculatePercentDifference`: a finite percentage, or the
JavaScript `Infinity` sentinel returned when `target = 0` and `guess ≠ 0`. -/
inductive PercentDiff
  | fin (q : ℚ)
  | inf
deriving DecidableEq

/-- `mathUtils.calculatePercentDifference` from `src/modules/state.ts`:
`if (target === 0) return guess === 0 ? 0 : Infinity;`
`return ((guess * 100) / (target * 100)) * 100 - 100;`. -/
def calculatePercentDifference (guess target : ℚ) : PercentDiff :=
  if target = 0 then (if guess = 0 then .fin 0 else .inf)
  else .fin (((guess * 100) / (target * 100)) * 100 - 100)

/-- `Math.abs(p) <= c` with JavaScript semantics at `Infinity`
(`Infinity <= c` is false for finite `c`). -/
def pdAbsLe (p : PercentDiff) (c : ℚ) : Bool :=
  match p with
  | .fin q => decide (|q| ≤ c)
  | .inf => false

/-- `p < 0` with JavaScript semantics at `Infinity` (`Infinity < 0` is false). -/
def pdNeg (p : PercentDiff) : Bool :=
  match p with
  | .fin q => decide (q < 0)
  | .inf => false

/-- `gameMechanics.createGuessObject` from `src/types/game.ts`. -/
def createGuessObject (guessValue productPrice : ℚ) : Guess :=
  let percentAway := calculatePercentDifference guessValue productPrice
  let closeness : GuessCloseness :=
    if pdAbsLe percentAway WIN_THRESHOLD_PERCENT then .win
    else if pdAbsLe percentAway NEAR_THRESHOLD_PERCENT then .near
    else .far
  let direction : GuessDirection :=
    if closeness = .win then .check
    else if pdNeg percentAway then .up
    else .down
  { guess := guessValue, closeness := closeness, direction := direction }

/-! ### Validator (`validation.validateGameNumber` in `src/modules/state.ts`) -/

/-- The `number | string` argument of `validateGameNumber`. -/
inductive GameNumInput
  | num (q : ℚ)
  | str (s : List Char)

/-- Accumulate the longest leading run of decimal digits; `none` when the run
is empty (JavaScript `parseInt` returning `NaN`). -/
def parseDigits : List Char → Nat → Bool → Option Nat
  | [], acc, seen => if seen then some acc else none
  | c :: rest, acc, seen =>
    if '0' ≤ c ∧ c ≤ '9' then
      parseDigits rest (acc * 10 + (c.toNat - Char.toNat '0')) true
    else if seen then some acc else none

/-- JavaScript `parseInt(s, 10)`: skip leading whitespace, read an optional
sign, then the longest leading digit run; `none` models `NaN`.  Digits after a
non-digit character (for example a decimal point) are discarded, not rejected. -/
def jsParseInt (s : List Char) : Option Int :=
  let s1 := s.dropWhile (fun c => c = ' ' ∨ c = '\t' ∨ c = '\n' ∨ c = '\r')
  match s1 with
  | '-' :: rest => (parseDigits rest 0 false).map (fun n => -(n : Int))
  | '+' :: rest => (parseDigits rest 0 false).map (fun n => (n : Int))
  | _ => (parseDigits s1 0 false).map (fun n => (n : Int))

/-- Outcome of `validateGameNumber`: `{valid: false, error}` or
`{valid: true, value}`. -/
inductive ValidationResult
  | invalid
  | valid (v : ℚ)
deriving DecidableEq

/-- `validation.validateGameNumber` from `src/modules/state.ts`:
`const num = typeof gameNumber === 'string' ? parseInt(gameNumber, 10) : gameNumber;`
`if (isNaN(num) || num < 1 || num > maxGameNumber) return {valid: false, ...};`
`return {valid: true, value: num};`. -/
def validateGameNumber (gameNumber : GameNumInput) (maxGameNumber : ℚ) :
    ValidationResult :=
  match gameNumber with
  | .num q => if 1 ≤ q ∧ q ≤ maxGameNumber then .valid q else .invalid
  | .str s =>
    match jsParseInt s with
    | none => .invalid
    | some n =>
      if 1 ≤ (n : ℚ) ∧ (n : ℚ) ≤ maxGameNumber then .valid (n : ℚ) else .invalid

/-! ### Session reconciler (`StateManager` in `src/modules/state.ts`) -/

/-- `StateManager.initializeGame`, with the ambient `isArchiveMode` flag,
requested `gameNumber`, persisted `gameState` and `userStats` made explicit.
Archive mode always resets the session and leaves stats alone; daily mode is a
no-op when the persisted session already carries the requested number, and
otherwise zeroes `currentStreak` when `hasWon === false`, resets the session,
and increments `numGames`. -/
def initializeGame (mode : Mode) (requested : Int) (gs : GameState)
    (st : UserStats) : GameState × UserStats :=
  match mode with
  | .archive =>
    ({ gameNumber := requested, guesses := [], hasWon := false }, st)
  | .daily =>
    if gs.gameNumber = requested then (gs, st)
    else
      let st1 := if gs.hasWon = false then { st with currentStreak := 0 } else st
      ({ gameNumber := requested, guesses := [], hasWon := false },
       { st1 with numGames := st1.numGames + 1 })

/-- `StateManager.canGuess`:
`guesses.length < MAX_GUESSES && !hasWon`. -/
def canGuess (gs : GameState) : Bool :=
  decide (gs.guesses.length < MAX_GUESSES) && !gs.hasWon

/-- `StateManager.gameComplete`:
`hasWon || guesses.length >= MAX_GUESSES`. -/
def gameComplete (gs : GameState) : Bool :=
  gs.hasWon || decide (MAX_GUESSES ≤ gs.guesses.length)

/-- `newWinsInNum[guessIndex] = (newWinsInNum[guessIndex] || 0) + 1` at an
in-bounds index. -/
def incrementAt (l : List Nat) (i : Nat) : List Nat :=
  l.set i (l.getD i 0 + 1)

/-- `StateManager.setGameWon`: set `hasWon`; in daily mode bump `numWins`,
`winsInNum[guesses.length - 1]` (when that index is in bounds), `currentStreak`
and `maxStreak = Math.max(newCurrentStreak, maxStreak)`. -/
def setGameWon (mode : Mode) (gs : GameState) (st : UserStats) :
    GameState × UserStats :=
  let gs1 := { gs with hasWon := true }
  match mode with
  | .archive => (gs1, st)
  | .daily =>
    let winsInNum1 :=
      if 1 ≤ gs.guesses.length ∧ gs.guesses.length - 1 < st.winsInNum.length
      then incrementAt st.winsInNum (gs.guesses.length - 1)
      else st.winsInNum
    let newCurrentStreak := st.currentStreak + 1
    (gs1,
     { st with
        numWins := st.numWins + 1,
        winsInNum := winsInNum1,
        currentStreak := newCurrentStreak,
        maxStreak := max newCurrentStreak st.maxStreak })

/-- `StateManager.setGameLost`: in daily mode zero `currentStreak`; archive
mode leaves everything untouched. -/
def setGameLost (mode : Mode) (gs : GameState) (st : UserStats) :
    GameState × UserStats :=
  match mode with
  | .archive => (gs, st)
  | .daily => (gs, { st with currentStreak := 0 })

/-- The state-changing core of `gameMechanics.processGuess`
(`src/types/game.ts`): reject when `!canGuess`, otherwise append the guess
(`StateManager.addGuess`) and dispatch to `setGameWon` on a winning closeness
or to `setGameLost` when the appended guess fills the board. -/
def recordGuess (mode : Mode) (g : Guess) (gs : GameState) (st : UserStats) :
    GameState × UserStats :=
  if canGuess gs = false then (gs, st)
  else
    let gs1 := { gs with guesses := gs.guesses ++ [g] }
    if g.closeness = .win then setGameWon mode gs1 st
    else if MAX_GUESSES ≤ gs1.guesses.length then setGameLost mode gs1 st
    else (gs1, st)

/-! ### Operation sequences over the reconciler -/

/-- One user-visible operation against the persisted session/stats pair. -/
inductive Op
  | reconcile (mode : Mode) (requested : Int)
  | record (mode : Mode) (g : Guess)

def Op.modeOf : Op → Mode
  | .reconcile m _ => m
  | .record m _ => m

def applyOp (p : GameState × UserStats) (op : Op) : GameState × UserStats :=
  match op with
  | .reconcile m r => initializeGame m r p.1 p.2
  | .record m g => recordGuess m g p.1 p.2

/-- Run a sequence of operations from the default (freshly installed) state. -/
def runOps (ops : List Op) : GameState × UserStats :=
  ops.foldl applyOp (DEFAULT_GAME_STATE, DEFAULT_USER_STATS)

/-- A concrete winning guess, used as input by several witnesses. -/
def winGuessEx : Guess := { guess := 100, closeness := .win, direction := .check }

/-! ### Helper lemmas -/

/-- Helper: an archive-mode `recordGuess` never touches the stats. -/
theorem archive_record_stats (g : Guess) (gs : GameState) (st : UserStats) :
    (recordGuess .archive g gs st).2 = st := by
  simp only [recordGuess, setGameWon, setGameLost]
  split
  · rfl
  · split
    · rfl
    · split <;> rfl

/-- Helper: any single archive-mode operation leaves the stats component alone. -/
theorem archive_op_stats (p : GameState × UserStats) (op : Op)
    (h : op.modeOf = Mode.archive) : (applyOp p op).2 = p.2 := by
  cases op with
  | reconcile m r =>
    cases m with
    | daily => simp [Op.modeOf] at h
    | archive => rfl
  | record m g =>
    cases m with
    | daily => simp [Op.modeOf] at h
    | archive => exact archive_record_stats g p.1 p.2

/-- Helper: a run of archive-mode operations leaves the stats component alone. -/
theorem archive_foldl_stats (ops : List Op) :
    ∀ p : GameState × UserStats, (∀ op ∈ ops, op.modeOf = Mode.archive) →
      (ops.foldl applyOp p).2 = p.2 := by
  induction ops with
  | nil => intro p _; rfl
  | cons op rest ih =>
    intro p h
    rw [List.foldl_cons]
    rw [ih (applyOp p op) (fun o ho => h o (List.mem_cons_of_mem _ ho))]
    exact archive_op_stats p op (h op (List.mem_cons_self _ _))

/-- Helper: every operation preserves `currentStreak ≤ maxStreak`. -/
theorem streak_le_max_applyOp (p : GameState × UserStats) (op : Op)
    (h : p.2.currentStreak ≤ p.2.maxStreak) :
    (applyOp p op).2.currentStreak ≤ (applyOp p op).2.maxStreak := by
  cases op with
  | reconcile m r =>
    cases m with
    | archive => exact h
    | daily =>
      simp only [applyOp, initializeGame]
      split
      · exact h
      · cases hw : p.1.hasWon with
        | false => simp [hw]
        | true => simpa [hw] using h
  | record m g =>
    simp only [applyOp, recordGuess]
    split
    · exact h
    · split
      · cases m with
        | archive => exact h
        | daily =>
          simp only [setGameWon]
          exact Nat.le_max_left _ _
      · split
        · cases m with
          | archive => exact h
          | daily => exact Nat.zero_le _
        · exact h

/-- Helper: a run of operations preserves `currentStreak ≤ maxStreak`. -/
theorem streak_le_max_foldl (ops : List Op) :
    ∀ p : GameState × UserStats, p.2.currentStreak ≤ p.2.maxStreak →
      (ops.foldl applyOp p).2.currentStreak ≤ (ops.foldl applyOp p).2.maxStreak := by
  induction ops with
  | nil => exact fun p h => h
  | cons op rest ih =>
    intro p h
    rw [List.foldl_cons]
    exact ih (applyOp p op) (streak_le_max_applyOp p op h)

/-- Helper: `incrementAt` bumps the addressed entry by exactly one. -/
theorem incrementAt_getD (l : List Nat) (i : Nat) (h : i < l.length) :
    (incrementAt l i).getD i 0 = l.getD i 0 + 1 := by
  simp [incrementAt, List.getD_eq_getElem?_getD, List.getElem?_set_self, h]

/-! ### Claims -/

/-- C1, counterexample: at the epoch instant itself (local midnight of the
epoch date) `getGameNumber` returns `ceil(0) = 0`, not `1`, refuting both
"any timestamp ≥ epoch yields an index ≥ 1" and "index(epoch) = 1 for any
time-of-day on the epoch date"; noon of the same calendar day returns `1`,
refuting "two timestamps on the same calendar day produce the same index". -/
theorem C1_counterexample :
    getGameNumber COSTCODLE_START_DATE_MS = 0 ∧
    ¬ (1 ≤ getGameNumber COSTCODLE_START_DATE_MS) ∧
    getGameNumber (COSTCODLE_START_DATE_MS + 43200000) = 1 := by
  decide

/-- C1, amended: `getGameNumber now` equals `ceil((now - EPOCH) / 86400000)`
and never errors; any timestamp strictly after the epoch instant yields an
index ≥ 1 (the epoch instant itself yields 0); and all timestamps in the
half-open window `(EPOCH + (k-1)·day, EPOCH + k·day]` — i.e. the same calendar
day, excluding its first instant (midnight) — yield the same index `k`. -/
theorem C1_gameNumber_correct (now k : Int) :
    getGameNumber now = ceilDiv (now - COSTCODLE_START_DATE_MS) MS_PER_DAY ∧
    (COSTCODLE_START_DATE_MS < now → 1 ≤ getGameNumber now) ∧
    (COSTCODLE_START_DATE_MS + (k - 1) * MS_PER_DAY < now →
      now ≤ COSTCODLE_START_DATE_MS + k * MS_PER_DAY → getGameNumber now = k) := by
  refine ⟨rfl, ?_, ?_⟩ <;>
    · simp only [getGameNumber, ceilDiv, MS_PER_DAY, COSTCODLE_START_DATE_MS]
      omega

/-- C1 witness: five milliseconds into day 10 the index is 10 and is ≥ 1. -/
theorem C1_witness :
    1 ≤ getGameNumber (COSTCODLE_START_DATE_MS + 9 * MS_PER_DAY + 5) ∧
    getGameNumber (COSTCODLE_START_DATE_MS + 9 * MS_PER_DAY + 5) = 10 :=
  ⟨(C1_gameNumber_correct (COSTCODLE_START_DATE_MS + 9 * MS_PER_DAY + 5) 10).2.1 (by decide),
   (C1_gameNumber_correct (COSTCODLE_START_DATE_MS + 9 * MS_PER_DAY + 5) 10).2.2
     (by decide) (by decide)⟩

/-- C2, counterexample: with a persisted session at the Unset sentinel
(`gameNumber = -1`) and `hasWon = false`, a daily reconcile to game 1 still
resets `currentStreak` (5 becomes 0), refuting the claim that the streak is
reset *only when* the persisted index differs from the Unset sentinel: the
code checks only `hasWon === false`. -/
theorem C2_counterexample :
    DEFAULT_GAME_STATE.hasWon = false ∧
    DEFAULT_GAME_STATE.gameNumber = -1 ∧
    (initializeGame .daily 1 DEFAULT_GAME_STATE
        { DEFAULT_USER_STATS with currentStreak := 5, maxStreak := 5 }).2.currentStreak = 0 := by
  decide

/-- C2, amended: in Daily mode with a stale persisted index,
`initializeGame` zeroes `currentStreak` exactly when the persisted session has
`hasWon = false` — regardless of whether the persisted index is the Unset
sentinel — resets the session to `guesses = []`, `hasWon = false`,
`gameNumber = requested`, increments `numGames` by exactly 1, and leaves
`numWins`, `maxStreak` and `winsInNum` unchanged. -/
theorem C2_daily_stale_reset (requested : Int) (gs : GameState) (st : UserStats)
    (h : gs.gameNumber ≠ requested) :
    (initializeGame .daily requested gs st).1 =
      { gameNumber := requested, guesses := [], hasWon := false } ∧
    (initializeGame .daily requested gs st).2.numGames = st.numGames + 1 ∧
    (initializeGame .daily requested gs st).2.currentStreak =
      (if gs.hasWon then st.currentStreak else 0) ∧
    (initializeGame .daily requested gs st).2.numWins = st.numWins ∧
    (initializeGame .daily requested gs st).2.maxStreak = st.maxStreak ∧
    (initializeGame .daily requested gs st).2.winsInNum = st.winsInNum := by
  simp only [initializeGame, if_neg h]
  cases h2 : gs.hasWon <;> simp

/-- C2 witness: a concrete stale daily reconcile increments `numGames` 3 → 4. -/
theorem C2_witness :
    (initializeGame .daily 6 { gameNumber := 5, guesses := [], hasWon := false }
        { numGames := 3, numWins := 2, winsInNum := [1, 1, 0, 0, 0, 0],
          currentStreak := 2, maxStreak := 2 }).2.numGames = 4 :=
  (C2_daily_stale_reset 6 { gameNumber := 5, guesses := [], hasWon := false }
    { numGames := 3, numWins := 2, winsInNum := [1, 1, 0, 0, 0, 0],
      currentStreak := 2, maxStreak := 2 } (by decide)).2.1

/-- C3: archive-mode reconciliation always produces a fresh session
(`guesses = []`, `hasWon = false`, `gameNumber = requested`) regardless of the
persisted session, and any sequence of archive-mode operations (reconciles,
wins and losses) leaves every field of the stats unchanged. -/
theorem C3_archive_reset_and_stats_frame (requested : Int) (gs : GameState)
    (st : UserStats) (ops : List Op) (p : GameState × UserStats)
    (h : ∀ op ∈ ops, op.modeOf = Mode.archive) :
    initializeGame .archive requested gs st =
      ({ gameNumber := requested, guesses := [], hasWon := false }, st) ∧
    (ops.foldl applyOp p).2 = p.2 :=
  ⟨rfl, archive_foldl_stats ops p h⟩

/-- C3 witness: a concrete all-archive run of three operations keeps the stats. -/
theorem C3_witness :
    ([Op.reconcile .archive 3, Op.record .archive winGuessEx,
        Op.reconcile .archive 7].foldl applyOp
      (DEFAULT_GAME_STATE, { DEFAULT_USER_STATS with numGames := 2 })).2 =
      { DEFAULT_USER_STATS with numGames := 2 } :=
  (C3_archive_reset_and_stats_frame 1 DEFAULT_GAME_STATE DEFAULT_USER_STATS
    [Op.reconcile .archive 3, Op.record .archive winGuessEx, Op.reconcile .archive 7]
    (DEFAULT_GAME_STATE, { DEFAULT_USER_STATS with numGames := 2 })
    (by intro op hop; fin_cases hop <;> rfl)).2

/-- C4: for an accepted guess, a Win closeness sets `hasWon = true`, and in
Daily mode increments `numWins`, bumps `winsInNum` at index
`len(guesses) - 1` (counted after the append), increments `currentStreak`,
and sets `maxStreak = max maxStreak (currentStreak + 1)`; a non-Win guess
that fills the board to `MAX_GUESSES` zeroes `currentStreak` in Daily mode. -/
theorem C4_win_loss_updates (mode : Mode) (g : Guess) (gs : GameState)
    (st : UserStats) (hcan : canGuess gs = true)
    (hlen : st.winsInNum.length = MAX_GUESSES) :
    (g.closeness = .win →
      (recordGuess mode g gs st).1.hasWon = true ∧
      (mode = .daily →
        (recordGuess mode g gs st).2.numWins = st.numWins + 1 ∧
        (recordGuess mode g gs st).2.winsInNum =
          incrementAt st.winsInNum ((gs.guesses ++ [g]).length - 1) ∧
        (recordGuess mode g gs st).2.winsInNum.getD gs.guesses.length 0 =
          st.winsInNum.getD gs.guesses.length 0 + 1 ∧
        (recordGuess mode g gs st).2.currentStreak = st.currentStreak + 1 ∧
        (recordGuess mode g gs st).2.maxStreak =
          max st.maxStreak (st.currentStreak + 1))) ∧
    (g.closeness ≠ .win → (gs.guesses ++ [g]).length = MAX_GUESSES →
      mode = .daily → (recordGuess mode g gs st).2.currentStreak = 0) := by
  have hne : ¬ (canGuess gs = false) := by simp [hcan]
  have hlt : gs.guesses.length < MAX_GUESSES := by
    have := (Bool.and_eq_true _ _).mp hcan
    simpa using this.1
  have hidx : gs.guesses.length < st.winsInNum.length := by rw [hlen]; exact hlt
  constructor
  · intro hwin
    simp only [recordGuess, if_neg hne, if_pos hwin]
    constructor
    · cases mode <;> simp [setGameWon]
    · intro hm
      subst hm
      simp only [setGameWon]
      split
      · refine ⟨trivial, rfl, ?_, trivial, Nat.max_comm _ _⟩
        have hi : (gs.guesses ++ [g]).length - 1 = gs.guesses.length := by simp
        rw [hi]
        exact incrementAt_getD st.winsInNum gs.guesses.length hidx
      · exfalso
        rename_i hc
        apply hc
        simp [hidx]
  · intro hnotwin hfull hm
    subst hm
    simp only [recordGuess, if_neg hne, if_neg hnotwin, if_pos hfull.ge]
    rfl

/-- C4 witness: a first-guess daily win sets `hasWon` and bumps `numWins` to 1. -/
theorem C4_witness :
    (recordGuess .daily winGuessEx
        { gameNumber := 1, guesses := [], hasWon := false } DEFAULT_USER_STATS).1.hasWon = true ∧
    (recordGuess .daily winGuessEx
        { gameNumber := 1, guesses := [], hasWon := false } DEFAULT_USER_STATS).2.numWins = 0 + 1 := by
  have h := C4_win_loss_updates .daily winGuessEx
    { gameNumber := 1, guesses := [], hasWon := false } DEFAULT_USER_STATS
    (by decide) (by decide)
  exact ⟨(h.1 rfl).1, ((h.1 rfl).2 rfl).1⟩

/-- C5: `recordGuess` rejects exactly when the session is complete
(`hasWon = true` or `len(guesses) ≥ MAX_GUESSES`, i.e. `canGuess` is false),
leaving session and stats unchanged; every accepted call appends exactly one
guess, so the guess count strictly increases by 1 per accepted call. -/
theorem C5_session_complete_guard (mode : Mode) (g : Guess) (gs : GameState)
    (st : UserStats) :
    ((gs.hasWon = true ∨ MAX_GUESSES ≤ gs.guesses.length) ↔ canGuess gs = false) ∧
    (canGuess gs = false → recordGuess mode g gs st = (gs, st)) ∧
    (canGuess gs = true →
      (recordGuess mode g gs st).1.guesses = gs.guesses ++ [g] ∧
      (recordGuess mode g gs st).1.guesses.length = gs.guesses.length + 1) := by
  refine ⟨?_, ?_, ?_⟩
  · cases h : gs.hasWon <;> simp [canGuess, h, Nat.not_lt]
  · intro h
    simp [recordGuess, h]
  · intro h
    have hne : ¬ (canGuess gs = false) := by simp [h]
    have hguesses : (recordGuess mode g gs st).1.guesses = gs.guesses ++ [g] := by
      simp only [recordGuess, if_neg hne]
      split
      · cases mode <;> simp [setGameWon]
      · split
        · cases mode <;> simp [setGameLost]
        · rfl
    exact ⟨hguesses, by rw [hguesses]; simp⟩

/-- C5 witness: a guess against an already-won session is a no-op. -/
theorem C5_witness :
    recordGuess .daily winGuessEx
        { gameNumber := 1, guesses := [], hasWon := true } DEFAULT_USER_STATS =
      ({ gameNumber := 1, guesses := [], hasWon := true }, DEFAULT_USER_STATS) :=
  (C5_session_complete_guard .daily winGuessEx
    { gameNumber := 1, guesses := [], hasWon := true } DEFAULT_USER_STATS).2.1 (by decide)

/-- C6, counterexample: stats reachability fails the claimed invariant — an
archive reconcile to game 5, a daily reconcile to game 5 (a no-op, since the
session is Current), then a winning daily guess, reach stats with
`numWins = 1 > numGames = 0`. -/
theorem C6_counterexample :
    (runOps [.reconcile .archive 5, .reconcile .daily 5,
        .record .daily winGuessEx]).2.numWins = 1 ∧
    (runOps [.reconcile .archive 5, .reconcile .daily 5,
        .record .daily winGuessEx]).2.numGames = 0 ∧
    ¬ ((runOps [.reconcile .archive 5, .reconcile .daily 5,
        .record .daily winGuessEx]).2.numWins ≤
       (runOps [.reconcile .archive 5, .reconcile .daily 5,
        .record .daily winGuessEx]).2.numGames) := by
  decide

/-- C6, amended: for every stats value reachable from the default stats by
any sequence of reconcile and recordGuess operations in either mode,
`currentStreak ≤ maxStreak` holds; `gamesWon ≤ gamesPlayed` does not hold in
general (see the counterexample). -/
theorem C6_streak_invariant (ops : List Op) :
    (runOps ops).2.currentStreak ≤ (runOps ops).2.maxStreak :=
  streak_le_max_foldl ops (DEFAULT_GAME_STATE, DEFAULT_USER_STATS) (Nat.le_refl 0)

/-- C7: in Daily mode with the persisted session already Current
(`gameNumber = requested`), `initializeGame` returns the persisted session and
stats unchanged, so calling it twice equals calling it once: no
double-increment of `numGames`, partial guesses preserved. -/
theorem C7_reconcile_idempotent (requested : Int) (gs : GameState) (st : UserStats)
    (h : gs.gameNumber = requested) :
    initializeGame .daily requested gs st = (gs, st) ∧
    initializeGame .daily requested
        (initializeGame .daily requested gs st).1
        (initializeGame .daily requested gs st).2 =
      initializeGame .daily requested gs st := by
  have h1 : initializeGame .daily requested gs st = (gs, st) := by
    simp [initializeGame, h]
  refine ⟨h1, ?_⟩
  rw [h1]
  exact h1

/-- C7 witness: a Current daily reconcile at game 3 is the identity. -/
theorem C7_witness :
    initializeGame .daily 3 { gameNumber := 3, guesses := [], hasWon := false }
        DEFAULT_USER_STATS =
      ({ gameNumber := 3, guesses := [], hasWon := false }, DEFAULT_USER_STATS) :=
  (C7_reconcile_idempotent 3 { gameNumber := 3, guesses := [], hasWon := false }
    DEFAULT_USER_STATS (by decide)).1

/-- C8: the evaluator computes `percentAway = (guess - target)/target * 100`
(the source's `((guess·100)/(target·100))·100 − 100` is algebraically equal),
returns 0 for `0/0` and the infinite sentinel for `guess ≠ 0, target = 0`
without dividing by zero; classifies Win when `|percentAway| ≤ 5`, else Near
when `≤ 25`, else Far; directions are Confirmed on Win, Up when
`percentAway < 0`, Down otherwise (also for the infinite sentinel); and
`evaluate(95,100)` is Win/Confirmed while `evaluate(70,100)` is Far/Up. -/
theorem C8_evaluate_correct (g t : ℚ) :
    (t ≠ 0 → calculatePercentDifference g t = .fin ((g - t) / t * 100)) ∧
    (t = 0 → g = 0 → calculatePercentDifference g t = .fin 0) ∧
    (t = 0 → g ≠ 0 → calculatePercentDifference g t = .inf) ∧
    (∀ q : ℚ, calculatePercentDifference g t = .fin q →
      ((|q| ≤ WIN_THRESHOLD_PERCENT →
          (createGuessObject g t).closeness = .win ∧
          (createGuessObject g t).direction = .check) ∧
       (¬ |q| ≤ WIN_THRESHOLD_PERCENT → |q| ≤ NEAR_THRESHOLD_PERCENT →
          (createGuessObject g t).closeness = .near) ∧
       (¬ |q| ≤ NEAR_THRESHOLD_PERCENT →
          (createGuessObject g t).closeness = .far) ∧
       (¬ |q| ≤ WIN_THRESHOLD_PERCENT → q < 0 →
          (createGuessObject g t).direction = .up) ∧
       (¬ |q| ≤ WIN_THRESHOLD_PERCENT → ¬ q < 0 →
          (createGuessObject g t).direction = .down))) ∧
    (calculatePercentDifference g t = .inf →
      (createGuessObject g t).closeness = .far ∧
      (createGuessObject g t).direction = .down) ∧
    createGuessObject 95 100 = { guess := 95, closeness := .win, direction := .check } ∧
    createGuessObject 70 100 = { guess := 70, closeness := .far, direction := .up } := by
  have hconc : ∀ gv tv w n : ℚ, tv ≠ 0 → ((gv * 100) / (tv * 100)) * 100 - 100 = w →
      calculatePercentDifference gv tv = .fin w := by
    intro gv tv w _ ht hw
    simp [calculatePercentDifference, ht, hw]
  refine ⟨?_, ?_, ?_, ?_, ?_, ?_, ?_⟩
  case refine_6 =>
    have h95 : calculatePercentDifference 95 100 = .fin (-5) :=
      hconc 95 100 (-5) 0 (by norm_num) (by norm_num)
    simp [createGuessObject, h95, pdAbsLe, pdNeg, WIN_THRESHOLD_PERCENT]
  case refine_7 =>
    have h70 : calculatePercentDifference 70 100 = .fin (-30) :=
      hconc 70 100 (-30) 0 (by norm_num) (by norm_num)
    simp [createGuessObject, h70, pdAbsLe, pdNeg, WIN_THRESHOLD_PERCENT,
      NEAR_THRESHOLD_PERCENT]
    norm_num
    decide
  · intro ht
    simp only [calculatePercentDifference, if_neg ht]
    congr 1
    field_simp
    ring
  · intro ht hg
    simp [calculatePercentDifference, ht, hg]
  · intro ht hg
    simp [calculatePercentDifference, ht, hg]
  · intro q hq
    have hwin_abs : ∀ c : ℚ, pdAbsLe (calculatePercentDifference g t) c = decide (|q| ≤ c) := by
      intro c
      rw [hq]
      rfl
    have hneg : pdNeg (calculatePercentDifference g t) = decide (q < 0) := by
      rw [hq]
      rfl
    refine ⟨?_, ?_, ?_, ?_, ?_⟩
    · intro h5
      constructor <;>
        simp [createGuessObject, hwin_abs, hneg, h5]
    · intro h5 h25
      simp [createGuessObject, hwin_abs, hneg, h5, h25]
    · intro h25
      have h5 : ¬ |q| ≤ WIN_THRESHOLD_PERCENT := fun hc => h25 (hc.trans (by norm_num [WIN_THRESHOLD_PERCENT, NEAR_THRESHOLD_PERCENT]))
      simp [createGuessObject, hwin_abs, hneg, h5, h25]
    · intro h5 hq0
      simp only [createGuessObject, hwin_abs, hneg, h5, hq0]
      simp [h5]
      split <;> simp
    · intro h5 hq0
      simp only [createGuessObject, hwin_abs, hneg, h5, hq0]
      simp [h5, hq0]
      split <;> simp
  · intro hinf
    constructor <;> simp [createGuessObject, hinf, pdAbsLe, pdNeg]

/-- C8 witness: at guess 95, target 100 the percent difference is the spec formula. -/
theorem C8_witness :
    calculatePercentDifference 95 100 = .fin ((95 - 100) / 100 * 100) :=
  (C8_evaluate_correct 95 100).1 (by norm_num)

/-- C9, counterexample: the decimal string "3.7" does not coerce to failure —
`parseInt` truncates it to 3, and `validateGameNumber("3.7", 10)` succeeds
with value 3, refuting "decimal strings coerce to failure". -/
theorem C9_counterexample :
    validateGameNumber (.str ['3', '.', '7']) 10 = .valid 3 ∧
    validateGameNumber (.str ['3', '.', '7']) 10 ≠ .invalid := by
  refine ⟨rfl, ?_⟩
  show ValidationResult.valid 3 ≠ .invalid
  simp

/-- C9, amended: `validateGameNumber` parses string arguments with
`parseInt` semantics — non-numeric strings fail, but decimal strings are
truncated at the first non-digit ("3.7" coerces to 3, not to failure) —
numeric arguments are used as-is, and the result is valid exactly when the
coerced value lies in `[1, maxAllowed]`, otherwise out-of-range failure. -/
theorem C9_validateGameNumber_correct (q maxN : ℚ) (s : List Char) (n : Int) :
    (validateGameNumber (.num q) maxN = .valid q ↔ 1 ≤ q ∧ q ≤ maxN) ∧
    (jsParseInt s = none → validateGameNumber (.str s) maxN = .invalid) ∧
    (jsParseInt s = some n →
      validateGameNumber (.str s) maxN =
        (if 1 ≤ (n : ℚ) ∧ (n : ℚ) ≤ maxN then .valid (n : ℚ) else .invalid)) ∧
    jsParseInt ['3', '.', '7'] = some 3 := by
  refine ⟨?_, ?_, ?_, rfl⟩
  · simp only [validateGameNumber]
    split
    · rename_i hc
      simp [hc]
    · rename_i hc
      simp [hc]
  · intro h
    simp [validateGameNumber, h]
  · intro h
    simp [validateGameNumber, h]

/-- C9 witness: the string "42" parses to 42 and validates against max 100. -/
theorem C9_witness :
    validateGameNumber (.str ['4', '2']) 100 =
      (if 1 ≤ ((42 : Int) : ℚ) ∧ ((42 : Int) : ℚ) ≤ 100
       then .valid ((42 : Int) : ℚ) else .invalid) :=
  (C9_validateGameNumber_correct 1 100 ['4', '2'] 42).2.2.1 (by rfl)

/-- C10: `canGuess` and `gameComplete` are exact complements for every game
state, and `canGuess` holds exactly when `hasWon = false` and
`guesses.length < MAX_GUESSES`. -/
theorem C10_canGuess_complement (gs : GameState) :
    canGuess gs = !gameComplete gs ∧
    (canGuess gs = true ↔ gs.hasWon = false ∧ gs.guesses.length < MAX_GUESSES) := by
  constructor
  · cases h : gs.hasWon with
    | true => simp [canGuess, gameComplete, h]
    | false =>
      simp only [canGuess, gameComplete, h, Bool.not_false, Bool.and_true, Bool.false_or]
      rw [← decide_not, decide_eq_decide]
      omega
  · cases h : gs.hasWon <;> simp [canGuess, h]

end Costcodle
